import Mathlib

/-!
Verification development for the `claude-stream` message-model and
rendering pipeline.

The Python source (src/claude_stream/{blocks,models,stream,formatters}.py)
is shallowly embedded below:

* decoded JSON records become the inductive `Json` (integers only: the
  claims under study never touch floating point values);
* Python functions that can raise an exception are modelled as
  `Option`-valued functions, `none` standing for an exception
  propagating past the caller;
* Python `set`s of strings are modelled as lists used only through
  membership / emptiness / intersection tests;
* pydantic construction of a model from a dict is modelled as an
  `Option`-valued constructor that fails (`none`, i.e. `ValidationError`)
  exactly when a promoted field is present with the wrong JSON type.
  Pydantic lax-mode coercions that none of the claims exercise
  (e.g. numeric strings to int, 0/1 to bool) are not modelled: a field
  annotated `str`/`int`/`bool`/`dict` accepts exactly the JSON value of
  that shape.
-/

/-- Decoded JSON value (the result of `json.loads` on one input line).
Numbers are modelled as integers; object fields keep insertion order and
are assumed key-unique, as Python dicts are. -/
inductive Json where
  | null : Json
  | bool (b : Bool) : Json
  | num (n : Int) : Json
  | str (s : String) : Json
  | arr (xs : List Json) : Json
  | obj (fields : List (String × Json)) : Json

/-- `d.get(k)` on a Python dict (`none` when the key is absent or the
value is not a dict at all). -/
def Json.get? (j : Json) (k : String) : Option Json :=
  match j with
  | .obj fs => fs.lookup k
  | _ => none

/-- Python truthiness of a decoded JSON value. -/
def pyTruthy : Json → Bool
  | .null => false
  | .bool b => b
  | .num n => n != 0
  | .str s => s != ""
  | .arr xs => !xs.isEmpty
  | .obj fs => !fs.isEmpty

/-- Style hints for rendering (`blocks.py`, `class Style`). -/
inductive Style where
  | bold | dim | italic
  | error | success | warning | info
  | user | assistant | system | tool | thinking | metadata
deriving DecidableEq

/-- Render blocks (`blocks.py`).  Python style *sets* are modelled as
lists; every claim below reads them only through membership.  The
`HeaderBlock.prefix` field is called `prefixText` here. -/
inductive Block where
  | header (text : String) (level : Nat) (icon : String) (prefixText : String) (styles : List Style)
  | text (text : String) (indent : Nat) (styles : List Style)
  | code (content : String) (language : String) (indent : Nat) (styles : List Style)
  | keyValue (key : String) (value : String) (indent : Nat) (styles : List Style)
  | divider (char : String) (width : Nat) (styles : List Style)
  | list (items : List String) (indent : Nat) (bullet : String) (styles : List Style)
  | nested (children : List Block) (indent : Nat) (styles : List Style)
  | spacer (lines : Nat) (styles : List Style)

/-- `models.py`, `RenderConfig` with its field defaults. -/
structure RenderConfig where
  show_thinking : Bool := true
  show_tool_results : Bool := true
  show_metadata : Bool := false
  show_line_numbers : Bool := false
  show_types : List String :=
    ["system", "assistant", "user", "file-history-snapshot",
     "summary", "queue-operation", "result"]
  show_subtypes : List String := []
  show_tools : List String := []
  grep_patterns : List String := []
  exclude_patterns : List String := []
deriving DecidableEq

def defaultRenderConfig : RenderConfig := {}

/-- `models.py` line 30. -/
def TOOL_RESULT_PREVIEW_LINES : Nat := 20

/-- `models.py` line 31. -/
def TOOL_INPUT_TRUNCATE_LENGTH : Nat := 200

/-- Python `text.split("\n")` at the character level: splitting on
each newline, so the empty string yields `[""]` and a trailing newline
yields a trailing `""`. -/
def splitLinesChars : List Char → List (List Char)
  | [] => [[]]
  | c :: cs =>
      if c = '\n' then [] :: splitLinesChars cs
      else
        match splitLinesChars cs with
        | r :: rs => (c :: r) :: rs
        | [] => [[c]]

/-- Python `text.split("\n")`. -/
def splitLines (s : String) : List String := (splitLinesChars s.data).map String.mk

/-- Python `sep.join(xs)`. -/
def pyJoin (sep : String) : List String → String
  | [] => ""
  | [x] => x
  | x :: xs => x ++ sep ++ pyJoin sep xs

/-- Python `str(n)` for an `int` is exactly Lean's `Int.repr`. -/
def intStr (n : Int) : String := Int.repr n

/-- Hex digits used by the `\uXXXX` escapes of `json.dumps`. -/
def hexDigitChars : List Char := "0123456789abcdef".data

/-- The hex digit of `n % 16`. -/
def hexDigit (n : Nat) : Char := hexDigitChars.getD (n % 16) '0'

/-- One `\uXXXX` escape for a 16-bit code unit `v`. -/
def escU (v : Nat) : List Char :=
  ['\\', 'u', hexDigit (v / 4096), hexDigit (v / 256), hexDigit (v / 16), hexDigit v]

/-- `json.dumps` escaping of one character with `ensure_ascii=True`
(the default used at `stream.py` lines 55 and 61): characters outside
`0x20..0x7e` plus the quote and backslash are escaped; astral
characters become UTF-16 surrogate pairs. -/
def jsonEscapeChar (c : Char) : List Char :=
  if c = '"' then ['\\', '"']
  else if c = '\\' then ['\\', '\\']
  else if c = '\n' then ['\\', 'n']
  else if c = '\r' then ['\\', 'r']
  else if c = '\t' then ['\\', 't']
  else if c.toNat = 8 then ['\\', 'b']
  else if c.toNat = 12 then ['\\', 'f']
  else if c.toNat < 32 || c.toNat > 126 then
    if c.toNat ≤ 65535 then escU c.toNat
    else escU (55296 + (c.toNat - 65536) / 1024) ++ escU (56320 + (c.toNat - 65536) % 1024)
  else [c]

/-- Escape a whole string for `json.dumps`. -/
def jsonEscape (cs : List Char) : List Char := (cs.map jsonEscapeChar).flatten

/-- Separator `", "` used between JSON items (the `json.dumps` default). -/
def jsonSep : List Char := [',', ' ']

mutual
/-- `json.dumps(data)` (default arguments, hence `ensure_ascii=True`),
producing the character list of the serialized record. -/
def dumpsChars : Json → List Char
  | .null => "null".data
  | .bool true => "true".data
  | .bool false => "false".data
  | .num n => (intStr n).data
  | .str s => '"' :: jsonEscape s.data ++ ['"']
  | .arr xs => '[' :: dumpsList xs ++ [']']
  | .obj fs => '\x7b' :: dumpsFields fs ++ ['\x7d']

/-- Serialize the elements of a JSON array, `", "`-separated. -/
def dumpsList : List Json → List Char
  | [] => []
  | [x] => dumpsChars x
  | x :: y :: xs => dumpsChars x ++ jsonSep ++ dumpsList (y :: xs)

/-- Serialize the fields of a JSON object, `", "`-separated,
each as `"key": value`. -/
def dumpsFields : List (String × Json) → List Char
  | [] => []
  | [(k, v)] => '"' :: jsonEscape k.data ++ ['"', ':', ' '] ++ dumpsChars v
  | (k, v) :: f :: fs =>
      '"' :: jsonEscape k.data ++ ['"', ':', ' '] ++ dumpsChars v ++ jsonSep ++ dumpsFields (f :: fs)
end

/-- `json.dumps(data)` as a string (`stream.py` lines 55 and 61). -/
def dumps (j : Json) : String := String.mk (dumpsChars j)

/-- Python's `pattern in msg_str` substring test. -/
def pySubstr (pat s : String) : Bool := decide (pat.data <:+: s.data)

/-- Simplified Python `repr` escaping of one string character: the
backslash, the quote and the common control characters are escaped;
other characters are kept verbatim (Python only differs on other
non-printable characters and on strings containing a single quote,
which no claim exercises). -/
def pyReprCharEsc (c : Char) : List Char :=
  if c = '\\' then ['\\', '\\']
  else if c = Char.ofNat 39 then ['\\', Char.ofNat 39]
  else if c = '\n' then ['\\', 'n']
  else if c = '\r' then ['\\', 'r']
  else if c = '\t' then ['\\', 't']
  else [c]

/-- Python `repr` of a string (simplified as in `pyReprCharEsc`). -/
def pyReprStr (s : String) : String :=
  String.mk (Char.ofNat 39 :: (s.data.map pyReprCharEsc).flatten ++ [Char.ofNat 39])

mutual
/-- Python `repr(value)` of a decoded JSON value. -/
def pyRepr : Json → String
  | .null => "None"
  | .bool true => "True"
  | .bool false => "False"
  | .num n => intStr n
  | .str s => pyReprStr s
  | .arr xs => "[" ++ pyJoin ", " (pyReprList xs) ++ "]"
  | .obj fs => "\x7b" ++ pyJoin ", " (pyReprFields fs) ++ "\x7d"

/-- `repr` of the elements of a list. -/
def pyReprList : List Json → List String
  | [] => []
  | x :: xs => pyRepr x :: pyReprList xs

/-- `repr` of the entries of a dict. -/
def pyReprFields : List (String × Json) → List String
  | [] => []
  | (k, v) :: fs => (pyReprStr k ++ ": " ++ pyRepr v) :: pyReprFields fs
end

/-- Python `str(value)` / f-string interpolation of a decoded JSON
value: a string is used verbatim, everything else falls back to
`repr`-style printing. -/
def pyStr : Json → String
  | .str s => s
  | j => pyRepr j

/-- pydantic validation of an optional `str` field with default `d`:
absent uses the default, a JSON string is accepted, anything else is a
`ValidationError`. -/
def vStr (j : Json) (k : String) (d : String) : Option String :=
  match j.get? k with
  | none => some d
  | some (.str s) => some s
  | some _ => none

/-- pydantic validation of an optional `bool` field. -/
def vBool (j : Json) (k : String) (d : Bool) : Option Bool :=
  match j.get? k with
  | none => some d
  | some (.bool b) => some b
  | some _ => none

/-- pydantic validation of an optional `int` field. -/
def vInt (j : Json) (k : String) (d : Int) : Option Int :=
  match j.get? k with
  | none => some d
  | some (.num n) => some n
  | some _ => none

/-- pydantic validation of a `str`-typed key of a non-total TypedDict:
absent is fine (`none`), a string is kept, anything else fails. -/
def vOptStr (j : Json) (k : String) : Option (Option String) :=
  match j.get? k with
  | none => some none
  | some (.str s) => some (some s)
  | some _ => none

/-- pydantic validation of an `int`-typed key of a non-total TypedDict. -/
def vOptInt (j : Json) (k : String) : Option (Option Int) :=
  match j.get? k with
  | none => some none
  | some (.num n) => some (some n)
  | some _ => none

/-- pydantic validation of a `dict[str, Any]` field, default `{}`. -/
def vDict (j : Json) (k : String) : Option Json :=
  match j.get? k with
  | none => some (.obj [])
  | some (.obj fs) => some (.obj fs)
  | some _ => none

/-- `models.py`, `TextContent`. -/
structure TextContent where
  text : String := ""

/-- `models.py`, `ThinkingContent`. -/
structure ThinkingContent where
  thinking : String := ""
  signature : String := ""

/-- `models.py`, `ToolUseContent`; the `input` dict keeps insertion
order, as Python dicts do. -/
structure ToolUseContent where
  id : String := ""
  name : String := ""
  input : List (String × Json) := []

/-- A validated element of a `tool_result` content list
(`ToolResultTextItem` / `ToolResultImageItem`). -/
inductive ToolResultItem where
  | text (text : String)
  | image (source : Json)

/-- `ToolResultContentValue`: a plain string or a validated item list. -/
inductive ToolResultValue where
  | str (s : String)
  | items (xs : List ToolResultItem)

/-- `models.py`, `ToolResultContent`. -/
structure ToolResultContent where
  tool_use_id : String := ""
  content : ToolResultValue := .str ""
  is_error : Bool := false

/-- `models.py`, `ImageContent` after validating its `ImageSourceInfo`
source dict (each key optional, `str`-typed). -/
structure ImageContent where
  sourceType : Option String := none
  media_type : Option String := none
  data : Option String := none

/-- `TextContent.render`. -/
def TextContent.render (c : TextContent) (_cfg : RenderConfig) : List Block :=
  (splitLines c.text).map (fun line => Block.text line 1 [])

/-- `ThinkingContent.render` (`models.py` 188-204): nothing unless
`show_thinking`; otherwise a header line plus one indented block per
line of the thinking text.  The `signature` field is not read. -/
def ThinkingContent.render (c : ThinkingContent) (cfg : RenderConfig) : List Block :=
  if !cfg.show_thinking then []
  else
    Block.text "💭 Thinking:" 1 [Style.thinking] ::
    (splitLines c.thinking).map (fun line => Block.text line 2 [Style.thinking])

/-- `str(value)` truncated to `TOOL_INPUT_TRUNCATE_LENGTH` characters
with an ellipsis marker (`models.py` 233-236). -/
def truncateValue (v : Json) : String :=
  let value_str := pyStr v
  if value_str.length > TOOL_INPUT_TRUNCATE_LENGTH then
    String.mk (value_str.data.take TOOL_INPUT_TRUNCATE_LENGTH) ++ "..."
  else value_str

/-- `ToolUseContent.render`. -/
def ToolUseContent.render (c : ToolUseContent) (cfg : RenderConfig) : List Block :=
  [Block.header ("Tool: " ++ c.name) 3 "▸" "" [Style.tool],
   Block.text ("(" ++ c.id ++ ")") 1 [Style.metadata]] ++
  (if cfg.show_tool_results then
     c.input.map (fun kv => Block.keyValue kv.1 (truncateValue kv.2) 2 [])
   else [])

/-- One line of `ToolResultContent._content_to_string` for a list item. -/
def toolResultItemStr : ToolResultItem → String
  | .text t => t
  | .image src =>
      "[Image: " ++
      (match src.get? "media_type" with
       | some v => pyStr v
       | none => "unknown") ++ "]"

/-- `ToolResultContent._content_to_string`. -/
def contentToString : ToolResultValue → String
  | .str s => s
  | .items xs => pyJoin "\n" (xs.map toolResultItemStr)

/-- Python truthiness of `self.content` in `ToolResultContent.render`. -/
def ToolResultValue.truthy : ToolResultValue → Bool
  | .str s => s != ""
  | .items xs => !xs.isEmpty

/-- `ToolResultContent.render` (`models.py` 254-294). -/
def ToolResultContent.render (c : ToolResultContent) (cfg : RenderConfig) : List Block :=
  (if c.is_error then [Block.header "Error" 3 "✗" "" [Style.error]]
   else [Block.header "Result" 3 "✓" "" [Style.success]]) ++
  [Block.text ("(" ++ c.tool_use_id ++ ")") 1 [Style.metadata]] ++
  (if cfg.show_tool_results && c.content.truthy then
     let lines := splitLines (contentToString c.content)
     (lines.take TOOL_RESULT_PREVIEW_LINES).map (fun l => Block.text l 2 []) ++
     (if lines.length > TOOL_RESULT_PREVIEW_LINES then
        [Block.text ("... (" ++ Nat.repr lines.length ++ " lines total)") 2 [Style.metadata]]
      else [])
   else [])

/-- `ImageContent.render`. -/
def ImageContent.render (c : ImageContent) (_cfg : RenderConfig) : List Block :=
  [Block.header ("Image (" ++ c.media_type.getD "unknown" ++ ")") 3 "🖼" "" [Style.user]]

/-- Construct `TextContent` from a raw item (pydantic `TextContent(**item)`). -/
def textContentOfJson (item : Json) : Option TextContent := do
  let t ← vStr item "text" ""
  pure ⟨t⟩

/-- Construct `ThinkingContent` from a raw item. -/
def thinkingOfJson (item : Json) : Option ThinkingContent := do
  let t ← vStr item "thinking" ""
  let s ← vStr item "signature" ""
  pure ⟨t, s⟩

/-- Construct `ToolUseContent` from a raw item. -/
def toolUseOfJson (item : Json) : Option ToolUseContent := do
  let i ← vStr item "id" ""
  let n ← vStr item "name" ""
  let inp ← match item.get? "input" with
            | none => some []
            | some (.obj fs) => some fs
            | some _ => none
  pure ⟨i, n, inp⟩

/-- Validate one element of a `tool_result` content list against
`ToolResultTextItem | ToolResultImageItem`. -/
def toolResultItemOfJson (j : Json) : Option ToolResultItem :=
  match j.get? "type" with
  | some (.str "text") =>
      match j.get? "text" with
      | some (.str t) => some (.text t)
      | _ => none
  | some (.str "image") =>
      match j.get? "source" with
      | some (.obj fs) => some (.image (.obj fs))
      | _ => none
  | _ => none

/-- Validate a `ToolResultContentValue` (`str | list[...]`). -/
def toolResultValueOfJson : Json → Option ToolResultValue
  | .str s => some (.str s)
  | .arr xs => (xs.mapM toolResultItemOfJson).map .items
  | _ => none

/-- Construct `ToolResultContent` from a raw item. -/
def toolResultOfJson (item : Json) : Option ToolResultContent := do
  let tid ← vStr item "tool_use_id" ""
  let cont ← match item.get? "content" with
             | none => some (ToolResultValue.str "")
             | some v => toolResultValueOfJson v
  let err ← vBool item "is_error" false
  pure ⟨tid, cont, err⟩

/-- Construct `ImageContent` from a raw item (validating the
`ImageSourceInfo` TypedDict). -/
def imageOfJson (item : Json) : Option ImageContent :=
  match item.get? "source" with
  | none => some {}
  | some (.obj fs) => do
      let t ← vOptStr (.obj fs) "type"
      let m ← vOptStr (.obj fs) "media_type"
      let d ← vOptStr (.obj fs) "data"
      pure ⟨t, m, d⟩
  | some _ => none

/-- The `content_type` tag a raw item is dispatched on
(`item.get("type", "")` compared against string literals; a missing or
non-string tag matches no branch). -/
def contentTypeTag (item : Json) : Option String :=
  match item.get? "type" with
  | some (.str s) => some s
  | _ => none

/-- One iteration of the `AgentStyleMessage.render_content` loop
(`models.py` 398-425).  `none` models an exception: `item.get` raises
`AttributeError` when the item is not a dict, and the pydantic
construction of the matched content class can raise `ValidationError`. -/
def renderContentItem (cfg : RenderConfig) (item : Json) : Option (List Block) :=
  match item with
  | .obj _ =>
    match contentTypeTag item with
    | some "text" => (textContentOfJson item).map (fun c => c.render cfg)
    | some "thinking" => (thinkingOfJson item).map (fun c => c.render cfg)
    | some "tool_use" => (toolUseOfJson item).map (fun c => c.render cfg)
    | some "tool_result" => (toolResultOfJson item).map (fun c => c.render cfg)
    | some "image" => (imageOfJson item).map (fun c => c.render cfg)
    | _ => some []
  | _ => none

/-- The full `render_content` loop over the content items. -/
def renderContentItems (cfg : RenderConfig) : List Json → Option (List Block)
  | [] => some []
  | item :: rest => do
      let bs ← renderContentItem cfg item
      let more ← renderContentItems cfg rest
      pure (bs ++ more)

/-- Validated `UsageInfo` TypedDict (all keys optional ints). -/
structure UsageVal where
  input_tokens : Option Int := none
  output_tokens : Option Int := none
  cache_read_input_tokens : Option Int := none
  cache_creation_input_tokens : Option Int := none

/-- The parsed message union (`models.py`): the seven known variants
plus the `BaseMessage` fallback.  Floats are not modelled, so
`total_cost_usd` only covers integral values (no claim touches the
cost row's fractional digits). -/
inductive Msg where
  | assistant (message : Json) (isSidechain : Bool) (uuid timestamp sessionId : String)
  | user (message : Json) (userType : String) (toolUseResult : Json) (uuid timestamp sessionId : String)
  | system (subtype content model claude_code_version cwd : String)
      (preTokens postTokens : Option Int) (uuid timestamp sessionId : String)
  | fileHistory (snapshot : Json) (uuid timestamp sessionId : String)
  | summary (summary : String) (uuid timestamp sessionId : String)
  | queueOperation (operation content : String) (uuid timestamp sessionId : String)
  | result (subtype : String) (total_cost_usd duration_ms num_turns : Int)
      (usage : UsageVal) (uuid timestamp sessionId : String)
  | base (type uuid timestamp sessionId : String)

/-- `msg.type` (the pydantic discriminant of each variant). -/
def Msg.type : Msg → String
  | .assistant .. => "assistant"
  | .user .. => "user"
  | .system .. => "system"
  | .fileHistory .. => "file-history-snapshot"
  | .summary .. => "summary"
  | .queueOperation .. => "queue-operation"
  | .result .. => "result"
  | .base t _ _ _ => t

/-- `BaseMessage.render_metadata` (`models.py` 347-363). -/
def renderMetadata (cfg : RenderConfig) (uuid sessionId timestamp : String) : List Block :=
  if !cfg.show_metadata then []
  else
    [Block.text "-- Metadata" 1 [Style.metadata]] ++
    (if uuid != "" then [Block.text ("| uuid: " ++ uuid) 1 [Style.metadata]] else []) ++
    (if sessionId != "" then [Block.text ("| session: " ++ sessionId) 1 [Style.metadata]] else []) ++
    (if timestamp != "" then [Block.text ("| timestamp: " ++ timestamp) 1 [Style.metadata]] else []) ++
    [Block.text "--" 1 [Style.metadata]]

/-- Python `x > 0` on a decoded JSON value: `True`/`False` behave as
1/0, non-numeric values raise `TypeError` (`none`). -/
def pyGtZero : Json → Option Bool
  | .num n => some (n > 0)
  | .bool b => some b
  | _ => none

/-- `AgentStyleMessage.render_usage` (`models.py` 427-440).  The
`usage` value comes from the *raw* `message` dict, so a non-dict value
raises at `usage.get` and non-numeric token counts raise at the `> 0`
comparisons (the `or` short-circuits, as in Python). -/
def renderUsage (message : Json) : Option (List Block) :=
  match (message.get? "usage").getD (.obj []) with
  | .obj fs =>
    let usage := Json.obj fs
    let inTok := (usage.get? "input_tokens").getD (.num 0)
    let outTok := (usage.get? "output_tokens").getD (.num 0)
    let cacheRead := (usage.get? "cache_read_input_tokens").getD (.num 0)
    do
      let b1 ← pyGtZero inTok
      let disp ← if b1 then pure true else pyGtZero outTok
      if disp then
        pure [Block.text
          ("Tokens: in=" ++ pyStr inTok ++ " out=" ++ pyStr outTok ++ " cache=" ++ pyStr cacheRead)
          1 [Style.metadata]]
      else pure []
  | _ => none

/-- `AgentStyleMessage.get_content_items`: the raw content list, or
`[]` when absent or not a list. -/
def getContentItems (message : Json) : List Json :=
  match message.get? "content" with
  | some (.arr xs) => xs
  | _ => []

/-- Generic accumulation of per-item block lists, propagating an
exception (`none`) from any item. -/
def renderItemsWith (f : Json → Option (List Block)) : List Json → Option (List Block)
  | [] => some []
  | x :: xs => do
      let a ← f x
      let b ← renderItemsWith f xs
      pure (a ++ b)

/-- `AssistantMessage.render` =
`AgentStyleMessage.render` (`models.py` 442-449) with the assistant
label/icon. -/
def renderAssistant (message : Json) (isSidechain : Bool) (uuid ts sid : String)
    (cfg : RenderConfig) : Option (List Block) := do
  let header := [Block.header
    (if isSidechain then "ASSISTANT (Task Agent)" else "ASSISTANT")
    2 "*" "" [Style.assistant, Style.bold]]
  let content ← renderContentItems cfg (getContentItems message)
  let usage ← renderUsage message
  pure (header ++ content ++ usage ++ renderMetadata cfg uuid sid ts ++ [Block.spacer 1 []])

/-- `UserMessage.is_subagent_result`: `toolUseResult` is a dict whose
`agentId` is present and not `None`. -/
def isSubagentResult (tur : Json) : Bool :=
  match tur with
  | .obj fs =>
      match fs.lookup "agentId" with
      | some .null => false
      | some _ => true
      | none => false
  | _ => false

/-- `UserMessage.is_tool_result`: `toolUseResult is not None` and not a
sub-agent result (the Python `None` default is modelled as `Json.null`). -/
def isToolResult (tur : Json) : Bool :=
  match tur with
  | .null => false
  | _ => !isSubagentResult tur

/-- `UserMessage.is_local_command`. -/
def isLocalCommand (message : Json) : Bool :=
  match (message.get? "content").getD (.str "") with
  | .str c => c.startsWith "<command-name>" || c.startsWith "<local-command-stdout>"
  | _ => false

/-- One iteration of the `render_user_input` structured-content loop
(`models.py` 541-552): non-dict items raise at `item.get`, a non-string
`text` value raises at `text.split`. -/
def renderUserInputItem (cfg : RenderConfig) (item : Json) : Option (List Block) :=
  match item with
  | .obj _ =>
    match contentTypeTag item with
    | some "text" =>
        match item.get? "text" with
        | none => some ((splitLines "").map (fun l => Block.text l 1 []))
        | some (.str t) => some ((splitLines t).map (fun l => Block.text l 1 []))
        | some _ => none
    | some "tool_result" => (toolResultOfJson item).map (fun c => c.render cfg)
    | some "image" => (imageOfJson item).map (fun c => c.render cfg)
    | _ => some []
  | _ => none

/-- `UserMessage.render_user_input` (`models.py` 525-556). -/
def renderUserInput (message : Json) (uuid ts sid : String) (cfg : RenderConfig) :
    Option (List Block) := do
  let hdr := [Block.header "USER" 2 "◂" "" [Style.user]]
  let body ← match message.get? "content" with
             | some (.str c) =>
                 if c != "" then pure ((splitLines c).map (fun l => Block.text l 1 []))
                 else pure []
             | some (.arr xs) => renderItemsWith (renderUserInputItem cfg) xs
             | _ => pure []
  pure (hdr ++ body ++ renderMetadata cfg uuid sid ts ++ [Block.spacer 1 []])

/-- One iteration of the `render_tool_result` loop (`models.py`
563-567): `item.get("type")` raises for non-dict items. -/
def renderUserToolResultItem (cfg : RenderConfig) (item : Json) : Option (List Block) :=
  match item with
  | .obj _ =>
      match item.get? "type" with
      | some (.str "tool_result") => (toolResultOfJson item).map (fun c => c.render cfg)
      | _ => some []
  | _ => none

/-- `UserMessage.render_tool_result` (`models.py` 558-571). -/
def renderUserToolResult (message : Json) (uuid ts sid : String) (cfg : RenderConfig) :
    Option (List Block) := do
  let body ← match (message.get? "content").getD (.arr []) with
             | .arr xs => renderItemsWith (renderUserToolResultItem cfg) xs
             | _ => pure []
  pure (body ++ renderMetadata cfg uuid sid ts ++ [Block.spacer 1 []])

/-- One iteration of the `render_subagent` content loop: only dict
items typed `"text"` contribute; a non-string `text` raises at
`text.split`; everything else is skipped. -/
def subagentContentItem (item : Json) : Option (List Block) :=
  match item with
  | .obj _ =>
      match item.get? "type" with
      | some (.str "text") =>
          match item.get? "text" with
          | none => some ((splitLines "").map (fun l => Block.text l 1 []))
          | some (.str t) => some ((splitLines t).map (fun l => Block.text l 1 []))
          | some _ => none
      | _ => some []
  | _ => some []

/-- `for item in content_items` over the raw `toolUseResult.content`
value: lists iterate their elements; strings/dicts iterate
characters/keys, none of which is a dict, so they contribute nothing;
other values are not iterable and raise `TypeError`. -/
def iterForSubagent (v : Json) : Option (List Json) :=
  match v with
  | .arr xs => some xs
  | .str _ => some []
  | .obj _ => some []
  | _ => none

/-- `UserMessage.render_subagent` (`models.py` 573-605). -/
def renderSubagent (tur : Json) (uuid ts sid : String) (cfg : RenderConfig) :
    Option (List Block) := do
  let agentId := match tur.get? "agentId" with
                 | some v => pyStr v
                 | none => "unknown"
  let hdr := [Block.header ("SUB-AGENT (" ++ agentId ++ ")") 2 "◆" "" [Style.assistant, Style.bold]]
  let items ← iterForSubagent ((tur.get? "content").getD (.arr []))
  let body ← renderItemsWith subagentContentItem items
  let totalTokens := (tur.get? "totalTokens").getD (.num 0)
  let pos ← pyGtZero totalTokens
  let tok := if pos then [Block.text ("Total tokens: " ++ pyStr totalTokens) 1 [Style.metadata]]
             else []
  pure (hdr ++ body ++ tok ++ renderMetadata cfg uuid sid ts ++ [Block.spacer 1 []])

/-- Index of the first occurrence of `pat` in `l` (Python `str.index`,
`none` when absent). -/
def subIndex (l pat : List Char) : Option Nat :=
  if pat.isPrefixOf l then some 0
  else
    match l with
    | [] => none
    | _ :: tl => (subIndex tl pat).map (· + 1)

/-- `UserMessage.render_local_command` (`models.py` 607-664); no
exception is possible on this path, the content is known to be a
string starting with one of the two tags. -/
def renderLocalCommand (message : Json) (uuid ts sid : String) (cfg : RenderConfig) :
    List Block :=
  let content := match (message.get? "content").getD (.str "") with
                 | .str c => c
                 | _ => ""
  let blocks :=
    if content.startsWith "<command-name>" then
      let cmd_name :=
        if pySubstr "<command-name>" content && pySubstr "</command-name>" content then
          let start := (subIndex content.data "<command-name>".data).getD 0 + "<command-name>".length
          let fin := (subIndex content.data "</command-name>".data).getD 0
          if start < fin then String.mk ((content.data.drop start).take (fin - start)) else ""
        else ""
      let cmd_args :=
        if pySubstr "<command-args>" content && pySubstr "</command-args>" content then
          let start := (subIndex content.data "<command-args>".data).getD 0 + "<command-args>".length
          let fin := (subIndex content.data "</command-args>".data).getD 0
          if start < fin then String.mk ((content.data.drop start).take (fin - start)) else ""
        else ""
      [Block.header ("Command: " ++ cmd_name) 3 "▸" "" [Style.user]] ++
      (if cmd_args != "" then [Block.keyValue "args" cmd_args 1 []] else [])
    else if content.startsWith "<local-command-stdout>" then
      if cfg.show_tool_results then
        let stdout := (content.replace "<local-command-stdout>" "").replace "</local-command-stdout>" ""
        let lines := splitLines stdout
        [Block.header "Output" 3 "◆" "" [Style.user]] ++
        (lines.take TOOL_RESULT_PREVIEW_LINES).map (fun l => Block.text l 2 []) ++
        (if lines.length > TOOL_RESULT_PREVIEW_LINES then
           [Block.text ("... (" ++ Nat.repr lines.length ++ " lines total)") 2 [Style.metadata]]
         else [])
      else []
    else []
  blocks ++ renderMetadata cfg uuid sid ts ++ [Block.spacer 1 []]

/-- `UserMessage.render` (`models.py` 515-523): the four mutually
exclusive branches in their priority order. -/
def renderUser (message : Json) (tur : Json) (uuid ts sid : String) (cfg : RenderConfig) :
    Option (List Block) :=
  if isSubagentResult tur then renderSubagent tur uuid ts sid cfg
  else if isToolResult tur then renderUserToolResult message uuid ts sid cfg
  else if isLocalCommand message then some (renderLocalCommand message uuid ts sid cfg)
  else renderUserInput message uuid ts sid cfg

/-- `SystemMessage.render` (`models.py` 678-703). -/
def renderSystem (subtype content model claude_code_version cwd : String)
    (preTokens : Option Int) (uuid ts sid : String) (cfg : RenderConfig) : List Block :=
  [Block.header ("SYSTEM (" ++ subtype ++ ")") 2 "▸" "" [Style.system]] ++
  (if subtype = "init" then
     [Block.keyValue "Model" model 1 [],
      Block.keyValue "Version" claude_code_version 1 [],
      Block.keyValue "Directory" cwd 1 []]
   else if subtype = "compact_boundary" then
     [Block.text (content ++ " (" ++ intStr (preTokens.getD 0) ++ " tokens before compaction)") 1 []]
   else if content != "" then [Block.text content 1 []]
   else []) ++
  renderMetadata cfg uuid sid ts ++ [Block.spacer 1 []]

/-- `FileHistorySnapshot.render` (`models.py` 712-722). -/
def renderFileHistory (snapshot : Json) : List Block :=
  let timestamp := match snapshot.get? "timestamp" with
                   | some v => pyStr v
                   | none => "unknown"
  [Block.header ("File History Snapshot (" ++ timestamp ++ ")") 2 "📸" "" [Style.system],
   Block.spacer 1 []]

/-- `SummaryMessage.render` (`models.py` 731-741). -/
def renderSummary (summary : String) : List Block :=
  [Block.header summary 1 "📋" "Summary:" [Style.info],
   Block.spacer 1 []]

/-- `QueueOperationMessage.render` (`models.py` 751-767). -/
def renderQueueOperation (operation content : String) (uuid ts sid : String)
    (cfg : RenderConfig) : List Block :=
  [Block.header ("Queue: " ++ operation) 2 "⚙" "" [Style.system]] ++
  (if content != "" then (splitLines content).map (fun l => Block.text l 1 []) else []) ++
  renderMetadata cfg uuid sid ts ++ [Block.spacer 1 []]

/-- `ResultMessage.render` (`models.py` 780-815).  `f"${cost:.4f}"` is
modelled for the integral costs representable here, for which Python
prints the integer followed by `".0000"`. -/
def renderResult (subtype : String) (total_cost_usd duration_ms num_turns : Int)
    (usage : UsageVal) (uuid ts sid : String) (cfg : RenderConfig) : List Block :=
  [Block.divider "═" 30 [],
   Block.header "SESSION COMPLETE" 1 "" "" [Style.bold, Style.info],
   Block.divider "═" 30 [],
   Block.keyValue "Status" subtype 1 [],
   Block.keyValue "Turns" (intStr num_turns) 1 [],
   Block.keyValue "Duration" (intStr ((duration_ms + 500).fdiv 1000) ++ "s") 1 [],
   Block.keyValue "Cost" ("$" ++ intStr total_cost_usd ++ ".0000") 1 [],
   Block.keyValue "Tokens"
     ("in=" ++ intStr (usage.input_tokens.getD 0) ++
      " out=" ++ intStr (usage.output_tokens.getD 0) ++
      " cache=" ++ intStr (usage.cache_read_input_tokens.getD 0)) 1 []] ++
  renderMetadata cfg uuid sid ts ++ [Block.spacer 1 []]

/-- `BaseMessage.render` (`models.py` 343-345): the unknown-type
fallback block. -/
def renderBase (type : String) : List Block :=
  [Block.text ("[Unknown message type: " ++ type ++ "]") 0 []]

/-- `message.render(config)`: per-variant dispatch; `none` models an
exception escaping `render`. -/
def Msg.render (m : Msg) (cfg : RenderConfig) : Option (List Block) :=
  match m with
  | .assistant message isSidechain uuid ts sid => renderAssistant message isSidechain uuid ts sid cfg
  | .user message _ tur uuid ts sid => renderUser message tur uuid ts sid cfg
  | .system st c mo v cw pre _ uuid ts sid => some (renderSystem st c mo v cw pre uuid ts sid cfg)
  | .fileHistory snap _ _ _ => some (renderFileHistory snap)
  | .summary s _ _ _ => some (renderSummary s)
  | .queueOperation op c uuid ts sid => some (renderQueueOperation op c uuid ts sid cfg)
  | .result st cost dur nt usage uuid ts sid => some (renderResult st cost dur nt usage uuid ts sid cfg)
  | .base t _ _ _ => some (renderBase t)

/-- Validation of the common `BaseMessage` fields inherited by every
variant (`uuid`, `timestamp`, `sessionId`, each an optional `str`). -/
def vCommon (data : Json) : Option (String × String × String) := do
  let uuid ← vStr data "uuid" ""
  let ts ← vStr data "timestamp" ""
  let sid ← vStr data "sessionId" ""
  pure (uuid, ts, sid)

/-- pydantic construction of `AssistantMessage` from the record. -/
def assistantOfJson (data : Json) : Option Msg := do
  let (uuid, ts, sid) ← vCommon data
  let message ← vDict data "message"
  let side ← vBool data "isSidechain" false
  pure (.assistant message side uuid ts sid)

/-- pydantic construction of `UserMessage`; `toolUseResult` is typed
`dict | str | None` with default `None` (modelled as `Json.null`). -/
def userOfJson (data : Json) : Option Msg := do
  let (uuid, ts, sid) ← vCommon data
  let message ← vDict data "message"
  let userType ← vStr data "userType" ""
  let tur ← match data.get? "toolUseResult" with
            | none => some Json.null
            | some (.obj fs) => some (Json.obj fs)
            | some (.str s) => some (Json.str s)
            | some .null => some Json.null
            | some _ => none
  pure (.user message userType tur uuid ts sid)

/-- pydantic construction of `SystemMessage` (with its
`CompactMetadata` TypedDict). -/
def systemOfJson (data : Json) : Option Msg := do
  let (uuid, ts, sid) ← vCommon data
  let subtype ← vStr data "subtype" ""
  let content ← vStr data "content" ""
  let model ← vStr data "model" ""
  let version ← vStr data "claude_code_version" ""
  let cwd ← vStr data "cwd" ""
  let meta ← match data.get? "compactMetadata" with
             | none => some (none, none)
             | some (.obj fs) => do
                 let p ← vOptInt (.obj fs) "preTokens"
                 let q ← vOptInt (.obj fs) "postTokens"
                 pure (p, q)
             | some _ => none
  pure (.system subtype content model version cwd meta.1 meta.2 uuid ts sid)

/-- pydantic construction of `FileHistorySnapshot`. -/
def fileHistoryOfJson (data : Json) : Option Msg := do
  let (uuid, ts, sid) ← vCommon data
  let snap ← vDict data "snapshot"
  pure (.fileHistory snap uuid ts sid)

/-- pydantic construction of `SummaryMessage`. -/
def summaryOfJson (data : Json) : Option Msg := do
  let (uuid, ts, sid) ← vCommon data
  let s ← vStr data "summary" ""
  pure (.summary s uuid ts sid)

/-- pydantic construction of `QueueOperationMessage`. -/
def queueOperationOfJson (data : Json) : Option Msg := do
  let (uuid, ts, sid) ← vCommon data
  let op ← vStr data "operation" ""
  let content ← vStr data "content" ""
  pure (.queueOperation op content uuid ts sid)

/-- pydantic construction of `ResultMessage` (cost restricted to
integral values, floats being out of the embedding's scope). -/
def resultOfJson (data : Json) : Option Msg := do
  let (uuid, ts, sid) ← vCommon data
  let subtype ← vStr data "subtype" ""
  let cost ← vInt data "total_cost_usd" 0
  let dur ← vInt data "duration_ms" 0
  let turns ← vInt data "num_turns" 0
  let usage ← match data.get? "usage" with
              | none => some ({} : UsageVal)
              | some (.obj fs) => do
                  let a ← vOptInt (.obj fs) "input_tokens"
                  let b ← vOptInt (.obj fs) "output_tokens"
                  let c ← vOptInt (.obj fs) "cache_read_input_tokens"
                  let d ← vOptInt (.obj fs) "cache_creation_input_tokens"
                  pure (UsageVal.mk a b c d)
              | some _ => none
  pure (.result subtype cost dur turns usage uuid ts sid)

/-- `BaseMessage(**data)`: `type` is a *required* `str` field, the
other common fields default to `""`; extra fields are allowed.  `none`
is the `ValidationError` pydantic raises when `type` is absent or
mistyped, or a common field is mistyped. -/
def baseMessageOfJson (data : Json) : Option Msg := do
  let t ← match data.get? "type" with
          | some (.str s) => some s
          | _ => none
  let (uuid, ts, sid) ← vCommon data
  pure (.base t uuid ts sid)

/-- The seven known discriminants (`models.py` 855-858). -/
def knownTypes : List String :=
  ["assistant", "user", "system", "file-history-snapshot",
   "summary", "queue-operation", "result"]

/-- The discriminated-union dispatch of `_MessageAdapter` for a known
`type` value. -/
def variantOfJson (t : String) (data : Json) : Option Msg :=
  if t = "assistant" then assistantOfJson data
  else if t = "user" then userOfJson data
  else if t = "system" then systemOfJson data
  else if t = "file-history-snapshot" then fileHistoryOfJson data
  else if t = "summary" then summaryOfJson data
  else if t = "queue-operation" then queueOperationOfJson data
  else resultOfJson data

/-- `parse_message` (`models.py` 846-869).  `msg_type = data.get("type", "")`
is only ever equal to a known discriminant when it is that string; for a
known type the adapter is tried and `BaseMessage(**data)` is the
fallback, whose own `ValidationError` (e.g. on a missing `type` key)
propagates (`none`); for an unknown/absent type `BaseMessage(**data)`
is constructed directly.  A non-dict argument raises at `data.get`. -/
def parse_message (data : Json) : Option Msg :=
  match data with
  | .obj _ =>
    match data.get? "type" with
    | some (.str t) =>
        if knownTypes.contains t then
          match variantOfJson t data with
          | some m => some m
          | none => baseMessageOfJson data
        else baseMessageOfJson data
    | _ => baseMessageOfJson data
  | _ => none

/-- `content_types.add(item.get("type"))` over the dict items of the
raw content list (`stream.py` 29-34).  `none` models the `TypeError`
`set.add` raises on an unhashable tag value (a list or dict); an
absent tag collects Python `None`, modelled as the element `none`. -/
def collectContentTypes : List Json → Option (List (Option Json))
  | [] => some []
  | item :: rest =>
      match item with
      | .obj _ =>
          match item.get? "type" with
          | some (.arr _) => none
          | some (.obj _) => none
          | tag => (collectContentTypes rest).map (tag :: ·)
      | _ => collectContentTypes rest

/-- `tools_in_msg.add(item.get("name"))` over `tool_use` dict items
(`stream.py` 44-47), with the same unhashability proviso. -/
def collectToolNames : List Json → Option (List (Option Json))
  | [] => some []
  | item :: rest =>
      match item with
      | .obj _ =>
          match item.get? "type" with
          | some (.str "tool_use") =>
              match item.get? "name" with
              | some (.arr _) => none
              | some (.obj _) => none
              | nm => (collectToolNames rest).map (nm :: ·)
          | _ => collectToolNames rest
      | _ => collectToolNames rest

/-- Nonemptiness of `str_set.intersection(collected)`: only string
elements of the collected set can equal a configured string. -/
def strSetIntersects (set : List String) (tags : List (Option Json)) : Bool :=
  set.any (fun s => tags.any (fun t => match t with
                                       | some (.str x) => x = s
                                       | _ => false))

/-- Python `v not in set_of_strings`: strings test membership, numbers
/ booleans / `None` are never members, lists and dicts are unhashable
and raise `TypeError` (`none`). -/
def subtypeNotInSet (v : Json) (set : List String) : Option Bool :=
  match v with
  | .arr _ => none
  | .obj _ => none
  | .str s => some (!set.contains s)
  | _ => some true

/-- `data.get("message", {}).get("content", [])` as iterated by the
subtype and tool rules: `none` when the `message` value is present but
not a dict (the second `.get` raises `AttributeError`); a non-list
content value yields no iterations. -/
def rawContentList (data : Json) : Option (List Json) :=
  match (data.get? "message").getD (.obj []) with
  | .obj mfs =>
      some (match ((Json.obj mfs).get? "content").getD (.arr []) with
            | .arr xs => xs
            | _ => [])
  | _ => none

/-- The subtype-filter block of `should_show_message` (`stream.py`
26-38): `some true` continues, `some false` rejects, `none` is an
exception (a non-dict `message` value raises at `.get("content")`, an
unhashable collected tag raises in `set.add`, an unhashable truthy
subtype raises at the `in` test). -/
def subtypeCheck (msg : Msg) (data : Json) (config : RenderConfig) : Option Bool :=
  if config.show_subtypes.isEmpty then some true
  else
    let subtype := data.get? "subtype"
    if msg.type = "assistant" then
      match rawContentList data with
      | none => none
      | some items =>
          match collectContentTypes items with
          | none => none
          | some tags =>
              if !strSetIntersects config.show_subtypes tags then some false else some true
    else
      match subtype with
      | none => some true
      | some v =>
          if pyTruthy v then
            match subtypeNotInSet v config.show_subtypes with
            | none => none
            | some notIn => if notIn then some false else some true
          else some true

/-- The tool-filter block of `should_show_message` (`stream.py`
41-51), with the same exception modelling. -/
def toolCheck (data : Json) (config : RenderConfig) : Option Bool :=
  if config.show_tools.isEmpty then some true
  else
    match rawContentList data with
    | none => none
    | some items =>
        match collectToolNames items with
        | none => none
        | some tools =>
            if tools.isEmpty then some false
            else if !strSetIntersects config.show_tools tools then some false
            else some true

/-- `should_show_message` (`stream.py` 18-65): the five filter rules
in source order, each rejecting (`some false`) on its failing
condition; `none` models an exception raised inside the subtype or
tool rule. -/
def should_show_message (msg : Msg) (data : Json) (config : RenderConfig) : Option Bool :=
  if !config.show_types.isEmpty && !config.show_types.contains msg.type then some false
  else
    match subtypeCheck msg data config with
    | none => none
    | some false => some false
    | some true =>
      match toolCheck data config with
      | none => none
      | some false => some false
      | some true =>
        if !config.grep_patterns.isEmpty &&
           !(config.grep_patterns.any (fun p => pySubstr p (dumps data))) then some false
        else if !config.exclude_patterns.isEmpty &&
                (config.exclude_patterns.any (fun p => pySubstr p (dumps data))) then some false
        else some true

/-- The three concrete formatters (`formatters.py`). -/
inductive Fmt where
  | ansi | markdown | plain

/-- `Formatter._indent`: prefix every line with two spaces per level. -/
def indentText (text : String) (level : Nat) : String :=
  if level = 0 then text
  else pyJoin "\n" ((splitLines text).map
    (fun line => String.mk (List.replicate (2 * level) ' ') ++ line))

/-- Python `s * n` string repetition. -/
def repeatString (s : String) : Nat → String
  | 0 => ""
  | n + 1 => s ++ repeatString s n

/-- `ANSIFormatter.RESET`. -/
def ansiReset : String := "\x1b[0m"

/-- `ANSIFormatter.STYLE_MAP`. -/
def ansiCode : Style → String
  | .bold => "\x1b[1m"
  | .dim => "\x1b[2m"
  | .italic => "\x1b[3m"
  | .error => "\x1b[31m"
  | .success => "\x1b[32m"
  | .warning => "\x1b[33m"
  | .info => "\x1b[36m"
  | .user => "\x1b[32m"
  | .assistant => ""
  | .system => "\x1b[34m"
  | .tool => "\x1b[33m"
  | .thinking => "\x1b[2m\x1b[3m"
  | .metadata => "\x1b[2m"

/-- `ANSIFormatter._apply_styles`.  Python iterates the style *set* in
unspecified order; the model concatenates codes in list order (no
claim depends on the order of combined codes). -/
def applyStylesAnsi (text : String) (styles : List Style) : String :=
  if styles.isEmpty then text
  else
    let codes := pyJoin "" (styles.map ansiCode)
    if codes != "" then codes ++ text ++ ansiReset else text

/-- `MarkdownFormatter._apply_styles`. -/
def applyStylesMd (text : String) (styles : List Style) : String :=
  let t1 := if styles.contains Style.bold then "**" ++ text ++ "**" else text
  if styles.contains Style.italic || styles.contains Style.thinking then "*" ++ t1 ++ "*"
  else t1

/-- The truthy parts `[icon] + [prefix] + [text]` a header is built
from. -/
def headerParts (icon prefixText text : String) : List String :=
  (if icon != "" then [icon] else []) ++
  (if prefixText != "" then [prefixText] else []) ++ [text]

/-- `block.styles | {Style.BOLD}` (modelled in list order). -/
def withBold (styles : List Style) : List Style :=
  if styles.contains Style.bold then styles else styles ++ [Style.bold]

mutual
/-- `format_block` dispatch of the three formatters (`formatters.py`):
each block kind's text shape per formatter. -/
def fmtBlock (f : Fmt) : Block → String
  | .header text level icon prefixText styles =>
      match f with
      | .ansi => applyStylesAnsi (pyJoin " " (headerParts icon prefixText text)) (withBold styles)
      | .markdown =>
          let hashes := repeatString "#" (min level 6)
          if level = 1 then hashes ++ " " ++ text
          else hashes ++ " " ++ pyJoin " " (headerParts icon prefixText text)
      | .plain => pyJoin " " ((if prefixText != "" then [prefixText] else []) ++ [text])
  | .text text indent styles =>
      match f with
      | .ansi => indentText (applyStylesAnsi text styles) indent
      | .markdown => indentText (applyStylesMd text styles) indent
      | .plain => indentText text indent
  | .code content language indent styles =>
      match f with
      | .ansi => indentText (applyStylesAnsi content styles) indent
      | .markdown => indentText ("```" ++ language ++ "\n" ++ content ++ "\n```") indent
      | .plain => indentText content indent
  | .keyValue key value indent styles =>
      match f with
      | .ansi => indentText (applyStylesAnsi (key ++ ":") [Style.bold] ++ " " ++
                             applyStylesAnsi value styles) indent
      | .markdown => indentText ("**" ++ key ++ ":** " ++ value) indent
      | .plain => indentText (key ++ ": " ++ value) indent
  | .divider char width styles =>
      match f with
      | .ansi => applyStylesAnsi (repeatString char width) styles
      | .markdown => "---"
      | .plain => repeatString char width
  | .list items indent bullet styles =>
      match f with
      | .ansi => indentText (applyStylesAnsi (pyJoin "\n" (items.map (fun i => bullet ++ " " ++ i))) styles) indent
      | .markdown => indentText (pyJoin "\n" (items.map (fun i => "- " ++ i))) indent
      | .plain => indentText (pyJoin "\n" (items.map (fun i => bullet ++ " " ++ i))) indent
  | .nested children indent _ => indentText (pyJoin "\n" (fmtFiltered f children)) indent
  | .spacer lines _ => repeatString "\n" (lines - 1)

/-- The `Formatter.format` loop: format each block, keeping only
truthy (non-empty) results. -/
def fmtFiltered (f : Fmt) : List Block → List String
  | [] => []
  | b :: bs =>
      let s := fmtBlock f b
      if s != "" then s :: fmtFiltered f bs else fmtFiltered f bs
end

/-- `Formatter.format` (`formatters.py` 36-43): format each block and
join the non-empty results with newlines. -/
def Formatter.format (f : Fmt) (blocks : List Block) : String :=
  pyJoin "\n" (fmtFiltered f blocks)

/-! ## Claim theorems -/

/-- C1: the claim says `parse` never raises past the caller and that a
record with an absent `type` yields the minimal fallback message with
`type = ""`.  On the empty record the code instead raises: `msg_type`
is computed as `""` but `BaseMessage(**data)` is built from the raw
dict, whose required `type` field is missing, so pydantic raises a
`ValidationError` that nothing catches.  `none` is that exception. -/
theorem C1_parse_raises_on_absent_type :
    parse_message (Json.obj []) = none ∧ baseMessageOfJson (Json.obj []) = none :=
  ⟨rfl, rfl⟩

/-- C2: the claim says `render(config)` never raises for any message
produced by the parser.  But an `assistant` record whose
`message.content` list contains a non-dict item parses successfully
(the item is behind `dict[str, Any]`), and `render_content` then
raises `AttributeError` at `item.get("type", "")`.  `none` is that
exception escaping `render`. -/
theorem C2_render_raises_on_nondict_content_item :
    parse_message (Json.obj [("type", Json.str "assistant"),
        ("message", Json.obj [("content", Json.arr [Json.str "hello"])])])
      = some (Msg.assistant (Json.obj [("content", Json.arr [Json.str "hello"])]) false "" "" "") ∧
    (Msg.assistant (Json.obj [("content", Json.arr [Json.str "hello"])]) false "" "" "").render
        defaultRenderConfig = none :=
  ⟨rfl, rfl⟩

/-- C3: the claim says every record with an unknown `type` parses to
the fallback message, which renders as exactly one
`[Unknown message type: {type}]` block.  The render half holds (third
conjunct), but parsing such a record whose `uuid` is not a string
raises: `BaseMessage(**data)` validates `uuid` as `str` and the
resulting `ValidationError` propagates (`none`). -/
theorem C3_fallback_construction_raises_on_mistyped_uuid :
    parse_message (Json.obj [("type", Json.str "mystery"), ("uuid", Json.num 5)]) = none ∧
    parse_message (Json.obj [("type", Json.str "mystery")]) = some (Msg.base "mystery" "" "" "") ∧
    (Msg.base "mystery" "" "" "").render defaultRenderConfig
      = some [Block.text "[Unknown message type: mystery]" 0 []] :=
  ⟨rfl, rfl, rfl⟩

/-- C7: a `result` message renders its Duration row (block index 5) as
`(duration_ms + 500) // 1000` followed by `"s"` (`//` is Python floor
division, `Int.fdiv`); in particular 1499 ms rounds to `"1s"` and
1500 ms to `"2s"`. -/
theorem C7_result_duration_rounding (subtype : String) (cost dur turns : Int)
    (usage : UsageVal) (uuid ts sid : String) (cfg : RenderConfig) :
    (Msg.result subtype cost dur turns usage uuid ts sid).render cfg
      = some (renderResult subtype cost dur turns usage uuid ts sid cfg) ∧
    (renderResult subtype cost dur turns usage uuid ts sid cfg).get? 5
      = some (Block.keyValue "Duration" (intStr ((dur + 500).fdiv 1000) ++ "s") 1 []) ∧
    (renderResult subtype cost 1499 turns usage uuid ts sid cfg).get? 5
      = some (Block.keyValue "Duration" "1s" 1 []) ∧
    (renderResult subtype cost 1500 turns usage uuid ts sid cfg).get? 5
      = some (Block.keyValue "Duration" "2s" 1 []) :=
  ⟨rfl, rfl, rfl, rfl⟩

/-- C8: a `thinking` content item renders no blocks when
`show_thinking` is off; with it on, a `"💭 Thinking:"` header plus one
indented block per line of the thinking text; and the signature field
never influences any produced block (the output is identical for any
two signatures). -/
theorem C8_thinking_render (t sig sig2 : String) (cfg : RenderConfig) :
    ThinkingContent.render ⟨t, sig⟩ { cfg with show_thinking := false } = [] ∧
    ThinkingContent.render ⟨t, sig⟩ { cfg with show_thinking := true }
      = Block.text "💭 Thinking:" 1 [Style.thinking] ::
          (splitLines t).map (fun line => Block.text line 2 [Style.thinking]) ∧
    ThinkingContent.render ⟨t, sig⟩ cfg = ThinkingContent.render ⟨t, sig2⟩ cfg :=
  ⟨rfl, rfl, rfl⟩

/-- C4: with `show_tool_results` enabled and non-empty content, a
`tool_result` renders (after its header and id line) exactly
`TOOL_RESULT_PREVIEW_LINES` preview text blocks plus one trailing note
reporting `TOOL_RESULT_PREVIEW_LINES + 1` total lines when the content
has exactly one line over the limit, and no note when the content has
exactly the limit. -/
theorem C4_tool_result_preview_truncation (c : ToolResultContent) (cfg : RenderConfig)
    (hshow : cfg.show_tool_results = true) (hne : c.content.truthy = true) :
    ((splitLines (contentToString c.content)).length = TOOL_RESULT_PREVIEW_LINES + 1 →
      c.render cfg =
        (if c.is_error then [Block.header "Error" 3 "✗" "" [Style.error]]
         else [Block.header "Result" 3 "✓" "" [Style.success]]) ++
        [Block.text ("(" ++ c.tool_use_id ++ ")") 1 [Style.metadata]] ++
        ((splitLines (contentToString c.content)).take TOOL_RESULT_PREVIEW_LINES).map
          (fun l => Block.text l 2 []) ++
        [Block.text ("... (" ++ Nat.repr (TOOL_RESULT_PREVIEW_LINES + 1) ++ " lines total)") 2
          [Style.metadata]]) ∧
    ((splitLines (contentToString c.content)).length = TOOL_RESULT_PREVIEW_LINES →
      c.render cfg =
        (if c.is_error then [Block.header "Error" 3 "✗" "" [Style.error]]
         else [Block.header "Result" 3 "✓" "" [Style.success]]) ++
        [Block.text ("(" ++ c.tool_use_id ++ ")") 1 [Style.metadata]] ++
        (splitLines (contentToString c.content)).map (fun l => Block.text l 2 [])) := by
  constructor <;> intro hlen <;>
    simp only [ToolResultContent.render, hshow, hne, Bool.and_self, if_true, hlen,
      TOOL_RESULT_PREVIEW_LINES] <;>
    norm_num
  have h20 : (splitLines (contentToString c.content)).length = 20 := hlen
  omega

def c4Content21 : ToolResultContent :=
  { tool_use_id := "t1", content := .str (String.mk (List.replicate 20 '\n')), is_error := false }

def c4Content20 : ToolResultContent :=
  { tool_use_id := "t2", content := .str (String.mk (List.replicate 19 '\n')), is_error := false }

/-- Witness for C4 at concrete 21-line and 20-line contents. -/
theorem C4_witness :
    c4Content21.render defaultRenderConfig =
      [Block.header "Result" 3 "✓" "" [Style.success], Block.text "(t1)" 1 [Style.metadata]] ++
      ((splitLines (contentToString c4Content21.content)).take TOOL_RESULT_PREVIEW_LINES).map
        (fun l => Block.text l 2 []) ++
      [Block.text "... (21 lines total)" 2 [Style.metadata]] ∧
    c4Content20.render defaultRenderConfig =
      [Block.header "Result" 3 "✓" "" [Style.success], Block.text "(t2)" 1 [Style.metadata]] ++
      (splitLines (contentToString c4Content20.content)).map (fun l => Block.text l 2 []) :=
  ⟨(C4_tool_result_preview_truncation c4Content21 defaultRenderConfig rfl rfl).1 (by decide),
   (C4_tool_result_preview_truncation c4Content20 defaultRenderConfig rfl rfl).2 (by decide)⟩

/-- Membership of a message in the seven known variants (everything
but the `BaseMessage` fallback). -/
def Msg.isKnownVariant : Msg → Bool
  | .base .. => false
  | _ => true

/-- C9: for every message of one of the seven known variants and every
configuration, whenever `render` completes, the produced block
sequence is non-empty and its last element is exactly one spacer
block (`SpacerBlock()`, i.e. one blank line). -/
theorem C9_render_ends_with_spacer (m : Msg) (cfg : RenderConfig) (bs : List Block)
    (hk : m.isKnownVariant = true) (hr : m.render cfg = some bs) :
    bs ≠ [] ∧ bs.getLast? = some (Block.spacer 1 []) := by
  have aux : ∀ bs' : List Block, bs'.getLast? = some (Block.spacer 1 []) →
      bs' ≠ [] ∧ bs'.getLast? = some (Block.spacer 1 []) := by
    intro bs' h
    refine ⟨?_, h⟩
    cases bs' with
    | nil => simp at h
    | cons a l => simp
  cases m with
  | base t u ts sid => simp [Msg.isKnownVariant] at hk
  | assistant message side u ts sid =>
      simp only [Msg.render, renderAssistant, bind, Option.bind_eq_some,
        Option.some.injEq, pure] at hr
      obtain ⟨content, -, usage, -, h⟩ := hr
      exact aux bs (by rw [← h]; simp [← List.head?_reverse])
  | system st c mo v cw pre post u ts sid =>
      have hbs : bs = renderSystem st c mo v cw pre u ts sid cfg := by
        simpa [Msg.render] using hr.symm
      exact aux bs (by rw [hbs]; simp [renderSystem, ← List.head?_reverse])
  | fileHistory snap u ts sid =>
      have hbs : bs = renderFileHistory snap := by
        simpa [Msg.render] using hr.symm
      exact aux bs (by rw [hbs]; simp [renderFileHistory, ← List.head?_reverse])
  | summary s u ts sid =>
      have hbs : bs = renderSummary s := by
        simpa [Msg.render] using hr.symm
      exact aux bs (by rw [hbs]; simp [renderSummary, ← List.head?_reverse])
  | queueOperation op c u ts sid =>
      have hbs : bs = renderQueueOperation op c u ts sid cfg := by
        simpa [Msg.render] using hr.symm
      exact aux bs (by rw [hbs]; simp [renderQueueOperation, ← List.head?_reverse])
  | result st cost dur nt usage u ts sid =>
      have hbs : bs = renderResult st cost dur nt usage u ts sid cfg := by
        simpa [Msg.render] using hr.symm
      exact aux bs (by rw [hbs]; simp [renderResult, ← List.head?_reverse])
  | user message ut tur u ts sid =>
      simp only [Msg.render, renderUser] at hr
      by_cases h1 : isSubagentResult tur = true
      · rw [if_pos h1] at hr
        simp only [renderSubagent, bind, Option.bind_eq_some, Option.some.injEq, pure] at hr
        obtain ⟨items, -, body, -, pos, -, h⟩ := hr
        exact aux bs (by rw [← h]; simp [← List.head?_reverse])
      · rw [if_neg h1] at hr
        by_cases h2 : isToolResult tur = true
        · rw [if_pos h2] at hr
          simp only [renderUserToolResult] at hr
          rcases hx : (message.get? "content").getD (Json.arr []) with _ | b | n | s | xs | fs <;>
            rw [hx] at hr <;>
            simp only [bind, Option.bind_eq_some, Option.some.injEq, pure, Option.bind_some, Option.some_bind] at hr <;>
            first
              | (obtain ⟨body, -, h⟩ := hr
                 exact aux bs (by rw [← h]; simp [← List.head?_reverse]))
              | (exact aux bs (by rw [← hr]; simp [← List.head?_reverse]))
        · rw [if_neg h2] at hr
          by_cases h3 : isLocalCommand message = true
          · rw [if_pos h3] at hr
            have hbs : bs = renderLocalCommand message u ts sid cfg := by
              simpa using hr.symm
            exact aux bs (by rw [hbs]; simp [renderLocalCommand, ← List.head?_reverse])
          · rw [if_neg h3] at hr
            simp only [renderUserInput] at hr
            rcases hx : message.get? "content" with - | (_ | b | n | s | xs | fs) <;>
              rw [hx] at hr <;>
              simp only [bind, Option.bind_eq_some, Option.some.injEq, pure,
                Option.bind_some, Option.some_bind] at hr <;>
              first
                | (obtain ⟨body, -, h⟩ := hr
                   exact aux bs (by rw [← h]; simp [← List.head?_reverse]))
                | (split at hr <;>
                    (simp only [Option.some.injEq] at hr
                     exact aux bs (by rw [← hr]; simp [← List.head?_reverse])))
                | (exact aux bs (by rw [← hr]; simp [← List.head?_reverse]))

/-- The block list `render` produces for a concrete summary message
(used by the C9 witness). -/
def c9WitnessBlocks : List Block :=
  [Block.header "hi" 1 "📋" "Summary:" [Style.info], Block.spacer 1 []]

/-- Witness for C9 at a concrete summary message and the default
configuration. -/
theorem C9_witness :
    c9WitnessBlocks ≠ [] ∧ c9WitnessBlocks.getLast? = some (Block.spacer 1 []) :=
  C9_render_ends_with_spacer (Msg.summary "hi" "" "" "") defaultRenderConfig c9WitnessBlocks rfl rfl

/-- Raw record for the C5 counterexample: a `system` record whose
`subtype` is present but the empty string. -/
def c5Data : Json := Json.obj [("type", Json.str "system"), ("subtype", Json.str "")]

/-- Filter configuration for the C5 counterexample (all other rules
neutral). -/
def c5Config : RenderConfig := { show_types := [], show_subtypes := ["init"] }

/-- C5 counterexample: the record's `subtype` field holds `""`, which
is not a member of the configured set, so the claim ("rejects exactly
when the raw record has a `subtype` field whose value is not a
member") demands rejection; but `elif subtype and subtype not in ...`
skips the falsy value and the predicate accepts the record. -/
theorem C5_counterexample :
    parse_message c5Data = some (Msg.system "" "" "" "" "" none none "" "" "") ∧
    should_show_message (Msg.system "" "" "" "" "" none none "" "" "") c5Data c5Config
      = some true ∧
    c5Data.get? "subtype" = some (Json.str "") ∧
    c5Config.show_subtypes.contains "" = false :=
  ⟨rfl, rfl, rfl, rfl⟩

/-- The corrected subtype rule for non-assistant messages, following
the amended claim's words: reject exactly when the raw `subtype` value
is truthy and not a member of the configured set; an absent or falsy
value passes; a truthy unhashable value (list/dict) raises. -/
def amendedNonAssistantSubtype (data : Json) (set : List String) : Option Bool :=
  match data.get? "subtype" with
  | none => some true
  | some v =>
      if pyTruthy v then
        match subtypeNotInSet v set with
        | none => none
        | some notIn => some (!notIn)
      else some true

/-- C5 amended: with a non-empty `show_subtypes` and every other
filter neutral, the predicate on a non-assistant message follows
`amendedNonAssistantSubtype` (so a message with an absent *or falsy*
subtype passes, and one with a truthy non-member subtype is rejected);
on an assistant message, whenever the tag collection completes, the
predicate accepts exactly when the configured set intersects the
collected content-item type tags. -/
theorem C5_subtype_filter_amended (msg : Msg) (data : Json) (cfg : RenderConfig)
    (hsub : cfg.show_subtypes ≠ [])
    (hty : cfg.show_types = []) (htool : cfg.show_tools = [])
    (hgrep : cfg.grep_patterns = []) (hexc : cfg.exclude_patterns = []) :
    (msg.type ≠ "assistant" →
      should_show_message msg data cfg = amendedNonAssistantSubtype data cfg.show_subtypes) ∧
    (msg.type = "assistant" → ∀ items tags,
      rawContentList data = some items →
      collectContentTypes items = some tags →
      should_show_message msg data cfg = some (strSetIntersects cfg.show_subtypes tags)) := by
  have hises : cfg.show_subtypes.isEmpty = false := by
    cases h : cfg.show_subtypes with
    | nil => exact absurd h hsub
    | cons a l => rfl
  have hkey : should_show_message msg data cfg = subtypeCheck msg data cfg := by
    unfold should_show_message toolCheck
    rw [hty, htool, hgrep, hexc]
    simp only [List.isEmpty_nil, Bool.not_true, Bool.false_and, if_false]
    cases subtypeCheck msg data cfg with
    | none => rfl
    | some b => cases b <;> rfl
  constructor
  · intro hna
    rw [hkey]
    simp only [subtypeCheck, amendedNonAssistantSubtype, hises, if_neg hna,
      Bool.false_eq_true, if_false]
    rcases data.get? "subtype" with - | v
    · rfl
    · by_cases ht : pyTruthy v = true
      · simp only [ht, if_true]
        rcases subtypeNotInSet v cfg.show_subtypes with - | notIn
        · rfl
        · cases notIn <;> rfl
      · simp [ht]
  · intro hma items tags hitems htags
    rw [hkey]
    simp only [subtypeCheck, hises, Bool.false_eq_true, if_false, if_pos hma,
      hitems, htags]
    cases hi : strSetIntersects cfg.show_subtypes tags <;> simp [hi]

/-- Raw record for the C5 witness: a `system` record whose `subtype`
is the truthy member string `"init"`. -/
def c5wData : Json := Json.obj [("type", Json.str "system"), ("subtype", Json.str "init")]

/-- Witness for the amended C5 at a concrete non-assistant record. -/
theorem C5_witness :
    should_show_message (Msg.system "init" "" "" "" "" none none "" "" "") c5wData c5Config
      = amendedNonAssistantSubtype c5wData c5Config.show_subtypes :=
  (C5_subtype_filter_amended (Msg.system "init" "" "" "" "" none none "" "" "") c5wData c5Config
    (by decide) rfl rfl rfl rfl).1 (by decide)

/-- C6 counterexample: the claim predicts that a `lines = 1` spacer
between texts `"a"` and `"b"` separates them by exactly one blank line
(output `"a\n\nb"`); but the spacer formats to the empty string, which
the join drops, so the output is `"a\nb"` with no blank line between
the texts. -/
theorem C6_counterexample :
    Formatter.format Fmt.plain [Block.text "a" 0 [], Block.spacer 1 [], Block.text "b" 0 []]
      = "a\nb" ∧
    ("a\nb" : String) ≠ "a\n\nb" :=
  ⟨rfl, by decide⟩

/-- The characters of `"\n" * k`. -/
theorem repeatString_newline_data (k : Nat) :
    (repeatString "\n" k).data = List.replicate k '\n' := by
  induction k with
  | zero => rfl
  | succ k ih => simp [repeatString, String.data_append, ih, List.replicate_succ]

/-- C6 amended: in every formatter, between two non-empty unstyled
texts a spacer with `lines = n ≥ 2` yields exactly `n` blank lines
(the spacer's own `n - 1` line breaks plus the two surrounding joins
give `n + 1` newline characters); a spacer with `lines = 1` formats to
the empty string, which the join drops, leaving a single newline and
hence zero blank lines. -/
theorem C6_spacer_blank_lines_amended (f : Fmt) (n : Nat) (s t : String)
    (hs : s ≠ "") (ht : t ≠ "") :
    (2 ≤ n →
      (Formatter.format f [Block.text s 0 [], Block.spacer n [], Block.text t 0 []]).data
        = s.data ++ List.replicate (n + 1) '\n' ++ t.data) ∧
    (Formatter.format f [Block.text s 0 [], Block.spacer 1 [], Block.text t 0 []]).data
      = s.data ++ ['\n'] ++ t.data := by
  have htext : ∀ (g : Fmt) (x : String), fmtBlock g (Block.text x 0 []) = x := by
    intro g x
    cases g <;> simp [fmtBlock, indentText, applyStylesAnsi, applyStylesMd]
  have hspace : ∀ (g : Fmt) (m : Nat), fmtBlock g (Block.spacer m []) = repeatString "\n" (m - 1) := by
    intro g m; cases g <;> rfl
  have hsb : (s != "") = true := bne_iff_ne.mpr hs
  have htb : (t != "") = true := bne_iff_ne.mpr ht
  have hnl : ("\n" : String).data = ['\n'] := rfl
  constructor
  · intro hn
    have hdata : (repeatString "\n" (n - 1)).data = List.replicate (n - 1) '\n' :=
      repeatString_newline_data _
    have hne : (repeatString "\n" (n - 1) != "") = true := by
      refine bne_iff_ne.mpr (fun h => ?_)
      have h0 : (repeatString "\n" (n - 1)).data = [] := by rw [h]
      rw [hdata, List.replicate_eq_nil_iff] at h0
      omega
    simp only [Formatter.format, fmtFiltered, htext, hspace, hsb, htb, hne, if_true]
    simp only [pyJoin, String.data_append, hdata, hnl]
    have h2 : n + 1 = 1 + (n - 1) + 1 := by omega
    rw [h2]
    simp [List.replicate_add, List.replicate_succ, List.append_assoc]
    calc List.replicate (n - 1) '\n' ++ '\n' :: t.data
        = (List.replicate (n - 1) '\n' ++ ['\n']) ++ t.data := by simp
      _ = ('\n' :: List.replicate (n - 1) '\n') ++ t.data := by
            rw [← List.replicate_succ', List.replicate_succ]
      _ = '\n' :: (List.replicate (n - 1) '\n' ++ t.data) := by simp
  · have hz : fmtBlock f (Block.spacer 1 []) = "" := by cases f <;> rfl
    simp only [Formatter.format, fmtFiltered, htext, hz, hsb, htb, bne_self_eq_false,
      Bool.false_eq_true, if_false, if_true]
    simp [pyJoin, String.data_append, hnl]

/-- Witness for the amended C6: a 2-line spacer between `"a"` and
`"b"` yields exactly `2 + 1` newline characters (two blank lines). -/
theorem C6_witness :
    (Formatter.format Fmt.plain [Block.text "a" 0 [], Block.spacer 2 [], Block.text "b" 0 []]).data
      = ("a" : String).data ++ List.replicate 3 '\n' ++ ("b" : String).data :=
  (C6_spacer_blank_lines_amended Fmt.plain 2 "a" "b" (by decide) (by decide)).1 (by decide)

/-- All characters in the list are ASCII (code point below 128). -/
def asciiOnly (cs : List Char) : Bool := cs.all (fun c => c.toNat < 128)

theorem asciiOnly_iff (cs : List Char) :
    asciiOnly cs = true ↔ ∀ c ∈ cs, c.toNat < 128 := by
  simp [asciiOnly]

theorem hexDigit_ascii (n : Nat) : (hexDigit n).toNat < 128 := by
  have h : n % 16 < 16 := Nat.mod_lt _ (by norm_num)
  unfold hexDigit
  generalize n % 16 = k at h ⊢
  interval_cases k <;> decide

theorem escU_ascii (v : Nat) : ∀ c ∈ escU v, c.toNat < 128 := by
  intro c hc
  simp only [escU, List.mem_cons, List.not_mem_nil, or_false] at hc
  rcases hc with rfl | rfl | rfl | rfl | rfl | rfl
  · decide
  · decide
  all_goals exact hexDigit_ascii _

theorem jsonEscapeChar_ascii (c : Char) : ∀ x ∈ jsonEscapeChar c, x.toNat < 128 := by
  intro x hx
  unfold jsonEscapeChar at hx
  split_ifs at hx with h1 h2 h3 h4 h5 h6 h7 h8 h9
  · simp at hx; rcases hx with rfl | rfl
    · decide
    · decide
  · simp at hx; subst hx; decide
  · simp at hx; rcases hx with rfl | rfl
    · decide
    · decide
  · simp at hx; rcases hx with rfl | rfl
    · decide
    · decide
  · simp at hx; rcases hx with rfl | rfl
    · decide
    · decide
  · simp at hx; rcases hx with rfl | rfl
    · decide
    · decide
  · simp at hx; rcases hx with rfl | rfl
    · decide
    · decide
  · exact escU_ascii _ x hx
  · rcases List.mem_append.mp hx with h | h <;> exact escU_ascii _ x h
  · simp only [List.mem_singleton] at hx
    subst hx
    simp only [Bool.or_eq_true, decide_eq_true_eq, not_or] at h8
    omega
theorem jsonEscape_ascii (cs : List Char) : ∀ x ∈ jsonEscape cs, x.toNat < 128 := by
  intro x hx
  simp only [jsonEscape, List.mem_flatten, List.mem_map] at hx
  obtain ⟨l, ⟨c, hc, rfl⟩, hxl⟩ := hx
  exact jsonEscapeChar_ascii c x hxl

theorem digitChar_ascii (n : Nat) : (Nat.digitChar n).toNat < 128 := by
  by_cases h : n < 16
  · interval_cases n <;> decide
  · have h0 : Nat.digitChar n = '*' := by
      unfold Nat.digitChar
      repeat rw [if_neg (by omega)]
    rw [h0]; decide

theorem toDigitsCore_ascii (fuel : Nat) : ∀ (n : Nat) (acc : List Char),
    (∀ c ∈ acc, c.toNat < 128) → ∀ c ∈ Nat.toDigitsCore 10 fuel n acc, c.toNat < 128 := by
  induction fuel with
  | zero => intro n acc hacc c hc; simpa [Nat.toDigitsCore] using hacc c hc
  | succ fuel ih =>
    intro n acc hacc c hc
    simp only [Nat.toDigitsCore] at hc
    by_cases h : n / 10 = 0
    · rw [if_pos h] at hc
      rcases List.mem_cons.mp hc with rfl | hmem
      · exact digitChar_ascii _
      · exact hacc _ hmem
    · rw [if_neg h] at hc
      refine ih _ _ ?_ c hc
      intro c' hc'
      rcases List.mem_cons.mp hc' with rfl | hmem
      · exact digitChar_ascii _
      · exact hacc _ hmem

theorem natRepr_ascii (n : Nat) : ∀ c ∈ (Nat.repr n).data, c.toNat < 128 := by
  intro c hc
  have hd : (Nat.repr n).data = Nat.toDigitsCore 10 (n + 1) n [] := rfl
  rw [hd] at hc
  exact toDigitsCore_ascii (n + 1) n [] (by simp) c hc

theorem intStr_ascii (n : Int) : ∀ c ∈ (intStr n).data, c.toNat < 128 := by
  intro c hc
  cases n with
  | ofNat m => exact natRepr_ascii m c hc
  | negSucc m =>
      have hd : (intStr (Int.negSucc m)).data = '-' :: (Nat.repr (m + 1)).data := rfl
      rw [hd] at hc
      rcases List.mem_cons.mp hc with rfl | hmem
      · decide
      · exact natRepr_ascii _ c hmem

theorem mem_trip_ascii (c : Char) (h : c ∈ ['"', ':', ' ']) : c.toNat < 128 := by
  rcases List.mem_cons.mp h with rfl | h
  · decide
  rcases List.mem_cons.mp h with rfl | h
  · decide
  rcases List.mem_cons.mp h with rfl | h
  · decide
  · simp at h

theorem mem_jsonSep_ascii (c : Char) (h : c ∈ jsonSep) : c.toNat < 128 := by
  rcases List.mem_cons.mp h with rfl | h
  · decide
  rcases List.mem_cons.mp h with rfl | h
  · decide
  · simp at h

mutual
theorem dumpsChars_ascii : ∀ (j : Json), ∀ c ∈ dumpsChars j, c.toNat < 128
  | .null => by intro c hc; simp only [dumpsChars] at hc; fin_cases hc <;> decide
  | .bool true => by intro c hc; simp only [dumpsChars] at hc; fin_cases hc <;> decide
  | .bool false => by intro c hc; simp only [dumpsChars] at hc; fin_cases hc <;> decide
  | .num n => by intro c hc; simpa only [dumpsChars] using intStr_ascii n c hc
  | .str s => by
      intro c hc
      simp only [dumpsChars] at hc
      rcases List.mem_cons.mp hc with rfl | hc
      · decide
      rcases List.mem_append.mp hc with hc | hc
      · exact jsonEscape_ascii _ c hc
      · simp only [List.mem_singleton] at hc; subst hc; decide
  | .arr xs => by
      intro c hc
      simp only [dumpsChars] at hc
      rcases List.mem_cons.mp hc with rfl | hc
      · decide
      rcases List.mem_append.mp hc with hc | hc
      · exact dumpsList_ascii xs c hc
      · simp only [List.mem_singleton] at hc; subst hc; decide
  | .obj fs => by
      intro c hc
      simp only [dumpsChars] at hc
      rcases List.mem_cons.mp hc with rfl | hc
      · decide
      rcases List.mem_append.mp hc with hc | hc
      · exact dumpsFields_ascii fs c hc
      · simp only [List.mem_singleton] at hc; subst hc; decide

theorem dumpsList_ascii : ∀ (xs : List Json), ∀ c ∈ dumpsList xs, c.toNat < 128
  | [] => by intro c hc; simp [dumpsList] at hc
  | [x] => by intro c hc; exact dumpsChars_ascii x c (by simpa [dumpsList] using hc)
  | x :: y :: xs => by
      intro c hc
      simp only [dumpsList] at hc
      rcases List.mem_append.mp hc with hc | hc
      · rcases List.mem_append.mp hc with hc | hc
        · exact dumpsChars_ascii x c hc
        · exact mem_jsonSep_ascii c hc
      · exact dumpsList_ascii (y :: xs) c hc

theorem dumpsFields_ascii : ∀ (fs : List (String × Json)), ∀ c ∈ dumpsFields fs, c.toNat < 128
  | [] => by intro c hc; simp [dumpsFields] at hc
  | [(k, v)] => by
      intro c hc
      simp only [dumpsFields] at hc
      rcases List.mem_cons.mp hc with rfl | hc
      · decide
      rcases List.mem_append.mp hc with hc | hc
      · rcases List.mem_append.mp hc with hc | hc
        · exact jsonEscape_ascii _ c hc
        · exact mem_trip_ascii c hc
      · exact dumpsChars_ascii v c hc
  | (k, v) :: f :: fs => by
      intro c hc
      simp only [dumpsFields] at hc
      rcases List.mem_cons.mp hc with rfl | hc
      · decide
      rcases List.mem_append.mp hc with hc | hc
      · rcases List.mem_append.mp hc with hc | hc
        · rcases List.mem_append.mp hc with hc | hc
          · rcases List.mem_append.mp hc with hc | hc
            · exact jsonEscape_ascii _ c hc
            · exact mem_trip_ascii c hc
          · exact dumpsChars_ascii v c hc
        · exact mem_jsonSep_ascii c hc
      · exact dumpsFields_ascii (f :: fs) c hc
end

/-- A string that is not ASCII-only contains a non-ASCII character. -/
theorem exists_nonascii_of_not_asciiOnly (p : String) (h : asciiOnly p.data = false) :
    ∃ c ∈ p.data, 128 ≤ c.toNat := by
  have h2 := List.all_eq_false.mp h
  obtain ⟨c, hc, hf⟩ := h2
  refine ⟨c, hc, ?_⟩
  simpa using hf

/-- A pattern containing a non-ASCII character never matches a
serialized record. -/
theorem nonascii_pattern_no_match (p : String) (j : Json)
    (h : ∃ c ∈ p.data, 128 ≤ c.toNat) : pySubstr p (dumps j) = false := by
  obtain ⟨c, hc, hge⟩ := h
  refine decide_eq_false (fun hinf => ?_)
  have hmem : c ∈ dumpsChars j := hinf.sublist.subset hc
  have := dumpsChars_ascii j c hmem
  omega

/-- The failing rule short-circuit: a non-empty pattern list whose
`any` is false rejects; the emptiness test is subsumed by `any`. -/
theorem isEmpty_and_any (l : List String) (f : String → Bool) :
    (!l.isEmpty && l.any f) = l.any f := by
  cases l <;> simp

theorem grep_nonascii_never_true (msg : Msg) (data : Json) (cfg : RenderConfig)
    (hne : cfg.grep_patterns ≠ [])
    (hpat : ∀ p ∈ cfg.grep_patterns, ∃ c ∈ p.data, 128 ≤ c.toNat) :
    should_show_message msg data cfg ≠ some true := by
  intro hcontra
  unfold should_show_message at hcontra
  by_cases h1 : (!cfg.show_types.isEmpty && !cfg.show_types.contains msg.type) = true
  · rw [if_pos h1] at hcontra; simp at hcontra
  · rw [if_neg h1] at hcontra
    rcases h2 : subtypeCheck msg data cfg with - | b
    · rw [h2] at hcontra; simp at hcontra
    · rw [h2] at hcontra
      cases b
      · simp at hcontra
      · rcases h3 : toolCheck data cfg with - | b2
        · rw [h3] at hcontra; simp at hcontra
        · rw [h3] at hcontra
          cases b2
          · simp at hcontra
          · simp only at hcontra
            have hany : (cfg.grep_patterns.any fun p => pySubstr p (dumps data)) = false := by
              rw [List.any_eq_false]
              intro p hp
              simp [nonascii_pattern_no_match p data (hpat p hp)]
            have hcond : (!cfg.grep_patterns.isEmpty &&
                !(cfg.grep_patterns.any fun p => pySubstr p (dumps data))) = true := by
              rw [hany]
              simp only [Bool.not_false, Bool.and_true]
              cases hG : cfg.grep_patterns with
              | nil => exact absurd hG hne
              | cons a l => rfl
            rw [if_pos hcond] at hcontra
            simp at hcontra

theorem any_congr_mem (l : List String) (f g : String → Bool)
    (h : ∀ x ∈ l, f x = g x) : l.any f = l.any g := by
  induction l with
  | nil => rfl
  | cons a t ih =>
      have hhead := h a (List.mem_cons_self a t)
      have htail := ih (fun x hx => h x (List.mem_cons_of_mem a hx))
      simp only [List.any_cons, hhead, htail]

theorem exclude_nonascii_invariant (msg : Msg) (data : Json) (cfg : RenderConfig) :
    should_show_message msg data cfg =
      should_show_message msg data
        { cfg with exclude_patterns := cfg.exclude_patterns.filter (fun p => asciiOnly p.data) } := by
  obtain ⟨f1, f2, f3, f4, f5, f6, f7, f8, f9⟩ := cfg
  have hsub : subtypeCheck msg data
      ⟨f1, f2, f3, f4, f5, f6, f7, f8, f9.filter (fun p => asciiOnly p.data)⟩ =
      subtypeCheck msg data ⟨f1, f2, f3, f4, f5, f6, f7, f8, f9⟩ := rfl
  have htool : toolCheck data
      ⟨f1, f2, f3, f4, f5, f6, f7, f8, f9.filter (fun p => asciiOnly p.data)⟩ =
      toolCheck data ⟨f1, f2, f3, f4, f5, f6, f7, f8, f9⟩ := rfl
  have hcond : (!(f9.filter (fun p => asciiOnly p.data)).isEmpty &&
        ((f9.filter (fun p => asciiOnly p.data)).any fun p => pySubstr p (dumps data))) =
      (!f9.isEmpty && (f9.any fun p => pySubstr p (dumps data))) := by
    rw [isEmpty_and_any, isEmpty_and_any, List.any_filter]
    refine any_congr_mem _ _ _ (fun p _ => ?_)
    by_cases ha : asciiOnly p.data = true
    · rw [ha, Bool.true_and]
    · have hf : pySubstr p (dumps data) = false :=
        nonascii_pattern_no_match p data
          (exists_nonascii_of_not_asciiOnly p (by simpa using ha))
      rw [hf, Bool.and_false]
  unfold should_show_message
  simp only [hsub, htool, hcond]

/-- Raw record for the C10 counterexample: its `message` value is not
a dict. -/
def c10Data : Json := Json.obj [("type", Json.str "summary"), ("message", Json.num 5)]

/-- Configuration for the C10 counterexample: grep patterns consist
solely of a non-ASCII pattern, and the tool filter is active. -/
def c10Config : RenderConfig := { show_types := [], show_tools := ["Bash"], grep_patterns := ["é"] }

/-- C10 counterexample: with a config whose `grep_patterns` consist
solely of non-ASCII patterns, the claim says every record is rejected;
but on this record the tool rule runs first and raises
(`data.get("message", {}).get(...)` on the non-dict value `5`), so the
record is not rejected — the exception propagates (`none`). -/
theorem C10_counterexample :
    (∀ p ∈ c10Config.grep_patterns, ∃ c ∈ p.data, 128 ≤ c.toNat) ∧
    parse_message c10Data = some (Msg.summary "" "" "" "") ∧
    should_show_message (Msg.summary "" "" "" "") c10Data c10Config = none :=
  ⟨by decide, rfl, rfl⟩

/-- C10 amended: `json.dumps` escapes every non-ASCII character, so
every serialized record is ASCII-only; a grep pattern containing a
non-ASCII character matches no record; a config whose `grep_patterns`
consist solely of such patterns never *accepts* a record (the
predicate never returns `true`: it rejects whenever it completes, and
on records where the subtype/tool rules raise, the exception
propagates instead); and exclude patterns containing non-ASCII
characters never affect the outcome (removing them changes nothing). -/
theorem C10_grep_exclude_ascii_amended :
    (∀ j : Json, asciiOnly (dumps j).data = true) ∧
    (∀ (p : String) (j : Json), (∃ c ∈ p.data, 128 ≤ c.toNat) → pySubstr p (dumps j) = false) ∧
    (∀ (msg : Msg) (data : Json) (cfg : RenderConfig),
      cfg.grep_patterns ≠ [] →
      (∀ p ∈ cfg.grep_patterns, ∃ c ∈ p.data, 128 ≤ c.toNat) →
      should_show_message msg data cfg ≠ some true) ∧
    (∀ (msg : Msg) (data : Json) (cfg : RenderConfig),
      should_show_message msg data cfg =
        should_show_message msg data
          { cfg with exclude_patterns := cfg.exclude_patterns.filter (fun p => asciiOnly p.data) }) :=
  ⟨fun j => (asciiOnly_iff _).mpr (dumpsChars_ascii j),
   nonascii_pattern_no_match, grep_nonascii_never_true, exclude_nonascii_invariant⟩

/-- Witness for the amended C10 at concrete inputs: the non-ASCII
pattern `"é"` does not match the serialized empty record, and a config
grepping only for it never accepts a record. -/
theorem C10_witness :
    pySubstr "é" (dumps (Json.obj [])) = false ∧
    should_show_message (Msg.base "x" "" "" "") (Json.obj [])
      { grep_patterns := ["é"] } ≠ some true :=
  ⟨C10_grep_exclude_ascii_amended.2.1 "é" (Json.obj []) ⟨'é', by decide, by decide⟩,
   C10_grep_exclude_ascii_amended.2.2.1 (Msg.base "x" "" "" "") (Json.obj [])
     { grep_patterns := ["é"] } (by decide) (by decide)⟩
